import Mathlib

/-!
Shallow embedding of the authenticated HTTP client of the Bitbucket CLI
(`internal/api/client.go`, `internal/config/config.go`), the subsystem the
specification calls the Authenticated Request Executor: credential-tagged
authorization headers, the 401 refresh-and-retry-once state machine, response
classification, and the credential store's clear operation.

External effects (the HTTP transport, the OAuth token refresher
`auth.RefreshAccessToken`, and token persistence `config.SaveToken`) are
modelled as an explicit environment; `doRequest` returns, besides the Go
function's result, the trace of HTTP attempts issued against the original
endpoint and the list of tokens passed to the store, so that the retry and
persistence behaviour is stated directly.
-/

namespace BB

/-- Value of the auth-method tag for OAuth credentials. The constant is
declared in `internal/config`; its value is pinned by the client source
comment `authMethod string // "oauth" or "token"` and by the auth command,
which renders the tag as the literal string `oauth`. -/
def AuthMethodOAuth : String := "oauth"

/-- Value of the auth-method tag for Basic / App-password credentials. -/
def AuthMethodToken : String := "token"

/-- `config.BitbucketAPI`, the fixed API base URL. -/
def BitbucketAPI : String := "https://api.bitbucket.org/2.0"

/-- A single-quote character, used to spell the session-expired message. -/
def apos : String := String.singleton (Char.ofNat 39)

/-- The fatal message produced by `doRequest` when the token refresh fails:
`session expired, please run 'bb auth login' again` (the wrapped cause is
appended after `: ` by `fmt.Errorf` with `%w`). -/
def sessionExpiredMsg : String :=
  "session expired, please run " ++ apos ++ "bb auth login" ++ apos ++ " again"

/-- `config.TokenData`: the stored credential. `authMethod` and `username`
are the fields of the current revision, used by the client, the auth command
and the config tests (empty `authMethod` is treated as OAuth by callers). -/
structure TokenData where
  accessToken : String
  refreshToken : String
  tokenType : String
  expiresIn : Nat
  scopes : String
  authMethod : String
  username : String
deriving Repr, DecidableEq

/-- `config.Config`: local configuration, holding the OAuth application
credential (client key / secret) needed for refresh. -/
structure Config where
  defaultWorkspace : String
  defaultFormat : String
  oauthKey : String
  oauthSecret : String
deriving Repr, DecidableEq

/-- The Authorization header produced by `Client.setAuth`: either a Bearer
token or HTTP Basic auth with username and password. -/
inductive AuthHeader where
  | bearer (tok : String)
  | basic (user pass : String)
deriving Repr, DecidableEq

/-- `api.Client`: in-memory state of the client. The Go `httpClient` field is
modelled by the environment's transport instead. -/
structure Client where
  token : TokenData
  cfg : Config
  authMethod : String
deriving Repr, DecidableEq

/-- An HTTP response as the client observes it: status code and raw body
bytes (bytes modelled as a `String`). -/
structure HttpResponse where
  statusCode : Nat
  body : String
deriving Repr, DecidableEq

/-- An outgoing HTTP request as built by `doRequest`: method, URL, buffered
body bytes, content type (empty string when the header is not set), and the
Authorization header attached by `setAuth`. -/
structure Request where
  method : String
  url : String
  body : String
  contentType : String
  authHeader : AuthHeader
deriving Repr, DecidableEq

/-- The external collaborators of the client, as pure functions:
`transport n req` is the outcome of the n-th HTTP attempt of the current
logical call (`http.Client.Do`), `refresher` is `auth.RefreshAccessToken`
(client id, client secret, refresh token), and `saveTok` is
`config.SaveToken`, returning `some errMsg` on failure and `none` on
success. -/
structure Env where
  transport : Nat → Request → Except String HttpResponse
  refresher : String → String → String → Except String TokenData
  saveTok : TokenData → Option String

/-- `Client.setAuth`: Basic auth with the stored username and access token
for the `token` tag, Bearer with the access token otherwise (the Go switch's
default branch covers OAuth). -/
def setAuth (c : Client) : AuthHeader :=
  if c.authMethod = AuthMethodToken then
    AuthHeader.basic c.token.username c.token.accessToken
  else
    AuthHeader.bearer c.token.accessToken

/-- Build the request `doRequest` hands to the transport: `http.NewRequest`
with a fresh reader over the buffered body, then `setAuth` and the
Content-Type header. -/
def buildRequest (c : Client) (method urlStr bodyBytes contentType : String) : Request :=
  { method := method, url := urlStr, body := bodyBytes,
    contentType := contentType, authHeader := setAuth c }

/-- The refresh-token preservation step of `refreshToken`: if the server did
not return a new refresh token, keep the old one. -/
def preserveRefresh (oldRefresh : String) (nt : TokenData) : TokenData :=
  if nt.refreshToken = "" then { nt with refreshToken := oldRefresh } else nt

/-- Outcome of `Client.refreshToken`: the Go error result, the client state
after the call (the in-memory token is replaced on refresher success, before
the save), and the tokens passed to `config.SaveToken`. -/
structure RefreshResult where
  result : Except String Unit
  client : Client
  saveCalls : List TokenData

/-- `Client.refreshToken`: guard on the OAuth application credential, call
the refresher with (key, secret, old refresh token), preserve the old
refresh token if the new one is empty, install the new token in memory,
then persist it; a save failure is returned as the function's error. -/
def refreshToken (env : Env) (c : Client) : RefreshResult :=
  if c.cfg.oauthKey = "" ∨ c.cfg.oauthSecret = "" then
    { result := Except.error "OAuth credentials not configured", client := c, saveCalls := [] }
  else
    match env.refresher c.cfg.oauthKey c.cfg.oauthSecret c.token.refreshToken with
    | Except.error e => { result := Except.error e, client := c, saveCalls := [] }
    | Except.ok nt0 =>
      let nt := preserveRefresh c.token.refreshToken nt0
      match env.saveTok nt with
      | none => { result := Except.ok (), client := { c with token := nt }, saveCalls := [nt] }
      | some e => { result := Except.error e, client := { c with token := nt }, saveCalls := [nt] }

/-- Outcome of `Client.doRequest`: the Go result (response or error), the
client state afterwards, the trace of HTTP attempts issued against the
original endpoint, whether the refresh path was entered, and the tokens
passed to `config.SaveToken`. -/
structure DoResult where
  result : Except String HttpResponse
  client : Client
  attempts : List Request
  refreshAttempted : Bool
  saveCalls : List TokenData

/-- `Client.doRequest`: buffer the body (a `none` body behaves as empty
bytes), issue the request, and on a 401 under an OAuth credential with a
non-empty refresh token run `refreshToken`; on refresh failure return the
fatal session-expired error, on success rebuild the request from the same
buffered body with the new credential and return whatever the second
attempt yields. -/
def doRequest (env : Env) (c : Client) (method urlStr : String)
    (body : Option String) (contentType : String) : DoResult :=
  let bodyBytes := body.getD ""
  let req := buildRequest c method urlStr bodyBytes contentType
  match env.transport 0 req with
  | Except.error e =>
      { result := Except.error e, client := c, attempts := [req],
        refreshAttempted := false, saveCalls := [] }
  | Except.ok resp =>
      if resp.statusCode = 401 ∧ c.authMethod = AuthMethodOAuth ∧ c.token.refreshToken ≠ "" then
        let rr := refreshToken env c
        match rr.result with
        | Except.error e =>
            { result := Except.error (sessionExpiredMsg ++ ": " ++ e), client := rr.client,
              attempts := [req], refreshAttempted := true, saveCalls := rr.saveCalls }
        | Except.ok _ =>
            let req2 := buildRequest rr.client method urlStr bodyBytes contentType
            { result := env.transport 1 req2, client := rr.client, attempts := [req, req2],
              refreshAttempted := true, saveCalls := rr.saveCalls }
      else
        { result := Except.ok resp, client := c, attempts := [req],
          refreshAttempted := false, saveCalls := [] }

/-- `handleResponse`: a status of at least 400 becomes an API error carrying
the literal status code and the raw body text; otherwise the body bytes are
returned. -/
def handleResponse (resp : HttpResponse) : Except String String :=
  if 400 ≤ resp.statusCode then
    Except.error ("API error (HTTP " ++ toString resp.statusCode ++ "): " ++ resp.body)
  else
    Except.ok resp.body

/-- `Client.Delete`: DELETE against the API base plus path; a 204 response
returns `(nil, nil)` (modelled as `Except.ok none`) without touching the
body; every other response goes through `handleResponse`. -/
def Delete (env : Env) (c : Client) (path : String) : Except String (Option String) :=
  match (doRequest env c "DELETE" (BitbucketAPI ++ path) none "").result with
  | Except.error e => Except.error e
  | Except.ok resp =>
      if resp.statusCode = 204 then Except.ok none
      else
        match handleResponse resp with
        | Except.error e => Except.error e
        | Except.ok b => Except.ok (some b)

/-- State of the credential file for `config.ClearToken`: `dirError` is a
failure of `ConfigDir` (home-directory lookup or mkdir), `tokenFile` the
contents of `token.json` when it exists. -/
structure FsState where
  dirError : Option String
  tokenFile : Option String
deriving Repr, DecidableEq

/-- `config.ClearToken`: remove `token.json`, treating a missing file as
success (`os.IsNotExist` errors are swallowed); a `ConfigDir` failure is
returned and leaves the state untouched. -/
def ClearToken (fs : FsState) : Except String Unit × FsState :=
  match fs.dirError with
  | some e => (Except.error e, fs)
  | none =>
      match fs.tokenFile with
      | none => (Except.ok (), fs)
      | some _ => (Except.ok (), { fs with tokenFile := none })

/-! Concrete fixtures mirroring the scenarios of §8 of the specification,
used by the witness theorems. -/

/-- The spec scenario's OAuth credential: access `A1`, refresh `R1`. -/
def tok1 : TokenData :=
  { accessToken := "A1", refreshToken := "R1", tokenType := "bearer",
    expiresIn := 7200, scopes := "repository", authMethod := "oauth", username := "" }

/-- Token returned by the refresher in the spec scenario: new access token
`A2`, empty refresh-token field. -/
def tokRefreshed : TokenData :=
  { accessToken := "A2", refreshToken := "", tokenType := "bearer",
    expiresIn := 7200, scopes := "repository", authMethod := "", username := "" }

/-- Configuration with the OAuth application credential present. -/
def cfg1 : Config :=
  { defaultWorkspace := "", defaultFormat := "table", oauthKey := "key", oauthSecret := "sec" }

/-- Client holding an OAuth credential. -/
def clientOauth : Client := { token := tok1, cfg := cfg1, authMethod := AuthMethodOAuth }

/-- The spec scenario's Basic credential: user `bob`, secret `pw` stored in
the access-token field. -/
def tokBasic : TokenData :=
  { accessToken := "pw", refreshToken := "", tokenType := "", expiresIn := 0,
    scopes := "", authMethod := AuthMethodToken, username := "bob" }

/-- Client holding a Basic / App-password credential. -/
def clientBasic : Client := { token := tokBasic, cfg := cfg1, authMethod := AuthMethodToken }

/-- A 401 Unauthorized response. -/
def resp401 : HttpResponse := { statusCode := 401, body := "unauthorized" }

/-- A 200 response with a body. -/
def resp200 : HttpResponse := { statusCode := 200, body := "ok:true" }

/-- A 204 No Content response carrying malformed body bytes. -/
def resp204 : HttpResponse := { statusCode := 204, body := "not-json!!" }

/-- Environment of the happy refresh scenario: first attempt 401, second
attempt 200, refresher succeeds with `tokRefreshed`, save succeeds. -/
def envRefreshOk : Env :=
  { transport := fun n _ => if n = 0 then Except.ok resp401 else Except.ok resp200,
    refresher := fun _ _ _ => Except.ok tokRefreshed,
    saveTok := fun _ => none }

/-- Environment where the token endpoint rejects the refresh. -/
def envRefreshFail : Env :=
  { transport := fun _ _ => Except.ok resp401,
    refresher := fun _ _ _ => Except.error "token refresh failed (HTTP 400): bad",
    saveTok := fun _ => none }

/-- Environment where the refresher succeeds but persistence fails. -/
def envSaveFail : Env :=
  { transport := fun _ _ => Except.ok resp401,
    refresher := fun _ _ _ => Except.ok tokRefreshed,
    saveTok := fun _ => some "disk full" }

/-- Environment whose transport always answers 204 with junk body bytes. -/
def envDelete : Env :=
  { transport := fun _ _ => Except.ok resp204,
    refresher := fun _ _ _ => Except.error "unused",
    saveTok := fun _ => none }

/-- In every execution `doRequest` issues at most two HTTP attempts against
the original endpoint (shared bound used by the retry theorem). -/
theorem doRequest_attempts_le_two (env : Env) (c : Client) (m u : String)
    (b : Option String) (ct : String) :
    (doRequest env c m u b ct).attempts.length ≤ 2 := by
  rcases h : env.transport 0 (buildRequest c m u (b.getD "") ct) with e | resp
  · simp [doRequest, h]
  · by_cases hc : resp.statusCode = 401 ∧ c.authMethod = AuthMethodOAuth ∧
        c.token.refreshToken ≠ ""
    · rcases hr : (refreshToken env c).result with e2 | u2 <;>
        simp [doRequest, h, hc, hr]
    · simp [doRequest, h, hc]

/-- C1: when the first HTTP attempt returns 401 and the refresh path is taken
and succeeds, `doRequest` reissues the original request (same method, URL,
body and content type) exactly once and returns whatever the second attempt
yields, whatever that is; and in every execution at most two HTTP attempts
against the original endpoint occur. -/
theorem doRequest_retry_exactly_once (env : Env) (c : Client) (m u : String)
    (b : Option String) (ct : String) (resp : HttpResponse)
    (hfirst : env.transport 0 (buildRequest c m u (b.getD "") ct) = Except.ok resp)
    (h401 : resp.statusCode = 401)
    (hoauth : c.authMethod = AuthMethodOAuth)
    (hrt : c.token.refreshToken ≠ "")
    (hrefresh : (refreshToken env c).result = Except.ok ()) :
    (doRequest env c m u b ct).attempts =
      [buildRequest c m u (b.getD "") ct,
       buildRequest (refreshToken env c).client m u (b.getD "") ct] ∧
    (buildRequest (refreshToken env c).client m u (b.getD "") ct).method = m ∧
    (buildRequest (refreshToken env c).client m u (b.getD "") ct).url = u ∧
    (buildRequest (refreshToken env c).client m u (b.getD "") ct).body = b.getD "" ∧
    (buildRequest (refreshToken env c).client m u (b.getD "") ct).contentType = ct ∧
    (doRequest env c m u b ct).result =
      env.transport 1 (buildRequest (refreshToken env c).client m u (b.getD "") ct) ∧
    (∀ (env2 : Env) (c2 : Client) (m2 u2 : String) (b2 : Option String) (ct2 : String),
      (doRequest env2 c2 m2 u2 b2 ct2).attempts.length ≤ 2) := by
  refine ⟨?_, rfl, rfl, rfl, rfl, ?_, doRequest_attempts_le_two⟩ <;>
    simp [doRequest, hfirst, h401, hoauth, hrt, hrefresh]

/-- C1 witness: in the spec's happy-refresh scenario the trace has exactly the
original attempt and one rebuilt retry, and the result is the second
attempt's 200 response. -/
theorem doRequest_retry_exactly_once_witness :
    (doRequest envRefreshOk clientOauth "POST" "https://api.example/x" (some "BODY")
        "application/json").attempts =
      [buildRequest clientOauth "POST" "https://api.example/x" "BODY" "application/json",
       buildRequest (refreshToken envRefreshOk clientOauth).client "POST"
         "https://api.example/x" "BODY" "application/json"] ∧
    (doRequest envRefreshOk clientOauth "POST" "https://api.example/x" (some "BODY")
        "application/json").result = Except.ok resp200 := by
  have h := doRequest_retry_exactly_once envRefreshOk clientOauth "POST"
    "https://api.example/x" (some "BODY") "application/json" resp401 rfl rfl rfl
    (by decide) rfl
  exact ⟨h.1, by rw [h.2.2.2.2.2.1]; rfl⟩

/-- C2: under a 401 first attempt with an OAuth credential, a non-empty
refresh token and a successful refresh, both attempts are built from the
buffered body and the retried request's body is byte-identical to the
original body B. -/
theorem doRequest_retry_body_identical (env : Env) (c : Client) (m u : String)
    (B ct : String) (resp : HttpResponse)
    (hfirst : env.transport 0 (buildRequest c m u B ct) = Except.ok resp)
    (h401 : resp.statusCode = 401)
    (hoauth : c.authMethod = AuthMethodOAuth)
    (hrt : c.token.refreshToken ≠ "")
    (hrefresh : (refreshToken env c).result = Except.ok ()) :
    (doRequest env c m u (some B) ct).attempts =
      [buildRequest c m u B ct, buildRequest (refreshToken env c).client m u B ct] ∧
    (buildRequest c m u B ct).body = B ∧
    (buildRequest (refreshToken env c).client m u B ct).body = B := by
  refine ⟨?_, rfl, rfl⟩
  simp [doRequest, hfirst, h401, hoauth, hrt, hrefresh]

/-- C2 witness: with body `BODY`, both the first and the retried request
carry exactly `BODY`. -/
theorem doRequest_retry_body_identical_witness :
    (doRequest envRefreshOk clientOauth "PUT" "https://api.example/y" (some "BODY")
        "application/json").attempts =
      [buildRequest clientOauth "PUT" "https://api.example/y" "BODY" "application/json",
       buildRequest (refreshToken envRefreshOk clientOauth).client "PUT"
         "https://api.example/y" "BODY" "application/json"] ∧
    (buildRequest clientOauth "PUT" "https://api.example/y" "BODY" "application/json").body
      = "BODY" ∧
    (buildRequest (refreshToken envRefreshOk clientOauth).client "PUT"
        "https://api.example/y" "BODY" "application/json").body = "BODY" :=
  doRequest_retry_body_identical envRefreshOk clientOauth "PUT" "https://api.example/y"
    "BODY" "application/json" resp401 rfl rfl rfl (by decide) rfl

/-- C3: when the refresher succeeds but returns a credential whose
refresh-token field is empty, the token installed in memory and the token
passed to `SaveToken` both carry the pre-refresh refresh token. -/
theorem refreshToken_preserves_old_refresh (env : Env) (c : Client) (nt0 : TokenData)
    (hkey : c.cfg.oauthKey ≠ "") (hsec : c.cfg.oauthSecret ≠ "")
    (href : env.refresher c.cfg.oauthKey c.cfg.oauthSecret c.token.refreshToken
      = Except.ok nt0)
    (hempty : nt0.refreshToken = "") :
    (refreshToken env c).client.token = { nt0 with refreshToken := c.token.refreshToken } ∧
    (refreshToken env c).saveCalls = [{ nt0 with refreshToken := c.token.refreshToken }] ∧
    (refreshToken env c).client.token.refreshToken = c.token.refreshToken := by
  cases hs : env.saveTok { nt0 with refreshToken := c.token.refreshToken } <;>
    simp [refreshToken, hkey, hsec, href, preserveRefresh, hempty, hs]

/-- C3 witness: in the spec scenario (refresher returns access `A2`, empty
refresh) the installed and persisted credential keeps refresh `R1`. -/
theorem refreshToken_preserves_old_refresh_witness :
    (refreshToken envRefreshOk clientOauth).client.token
      = { tokRefreshed with refreshToken := "R1" } ∧
    (refreshToken envRefreshOk clientOauth).saveCalls
      = [{ tokRefreshed with refreshToken := "R1" }] ∧
    (refreshToken envRefreshOk clientOauth).client.token.refreshToken = "R1" :=
  refreshToken_preserves_old_refresh envRefreshOk clientOauth tokRefreshed
    (by decide) (by decide) rfl rfl

/-- C4: when the refresh step fails — the OAuth application credential is
absent or the Token Refresher returns an error — `doRequest` returns the
fatal session-expired error, never calls `SaveToken`, and makes no second
HTTP attempt against the original endpoint. -/
theorem doRequest_refresh_failure_fatal (env : Env) (c : Client) (m u : String)
    (b : Option String) (ct : String) (resp : HttpResponse)
    (hfirst : env.transport 0 (buildRequest c m u (b.getD "") ct) = Except.ok resp)
    (h401 : resp.statusCode = 401)
    (hoauth : c.authMethod = AuthMethodOAuth)
    (hrt : c.token.refreshToken ≠ "")
    (hfail : c.cfg.oauthKey = "" ∨ c.cfg.oauthSecret = "" ∨
      ∃ e, env.refresher c.cfg.oauthKey c.cfg.oauthSecret c.token.refreshToken
        = Except.error e) :
    (∃ e, (doRequest env c m u b ct).result
        = Except.error (sessionExpiredMsg ++ ": " ++ e)) ∧
    (doRequest env c m u b ct).saveCalls = [] ∧
    (doRequest env c m u b ct).attempts.length = 1 := by
  have hr : ∃ e, refreshToken env c
      = { result := Except.error e, client := c, saveCalls := [] } := by
    by_cases hcfg : c.cfg.oauthKey = "" ∨ c.cfg.oauthSecret = ""
    · exact ⟨"OAuth credentials not configured", by simp [refreshToken, hcfg]⟩
    · rcases hfail with h | h | ⟨e, he⟩
      · exact absurd (Or.inl h) hcfg
      · exact absurd (Or.inr h) hcfg
      · exact ⟨e, by simp [refreshToken, hcfg, he]⟩
  rcases hr with ⟨e, hr⟩
  refine ⟨⟨e, ?_⟩, ?_, ?_⟩ <;> simp [doRequest, hfirst, h401, hoauth, hrt, hr]

/-- C4 witness: with a rejecting token endpoint, the call fails with the
session-expired message, saves nothing, and issues a single attempt. -/
theorem doRequest_refresh_failure_fatal_witness :
    (∃ e, (doRequest envRefreshFail clientOauth "GET" "https://api.example/z" none "").result
        = Except.error (sessionExpiredMsg ++ ": " ++ e)) ∧
    (doRequest envRefreshFail clientOauth "GET" "https://api.example/z" none "").saveCalls
      = [] ∧
    (doRequest envRefreshFail clientOauth "GET" "https://api.example/z" none "").attempts.length
      = 1 :=
  doRequest_refresh_failure_fatal envRefreshFail clientOauth "GET" "https://api.example/z"
    none "" resp401 rfl rfl rfl (by decide)
    (Or.inr (Or.inr ⟨"token refresh failed (HTTP 400): bad", rfl⟩))

/-- C5: under a Basic / App-password credential (tag `token`) a 401 response
is returned unmodified as the final result: no refresh, no save, a single
HTTP attempt. -/
theorem doRequest_basic_401_unmodified (env : Env) (c : Client) (m u : String)
    (b : Option String) (ct : String) (resp : HttpResponse)
    (hbasic : c.authMethod = AuthMethodToken)
    (hfirst : env.transport 0 (buildRequest c m u (b.getD "") ct) = Except.ok resp)
    (h401 : resp.statusCode = 401) :
    (doRequest env c m u b ct).result = Except.ok resp ∧
    (doRequest env c m u b ct).refreshAttempted = false ∧
    (doRequest env c m u b ct).saveCalls = [] ∧
    (doRequest env c m u b ct).attempts.length = 1 := by
  have hne : ¬ c.authMethod = AuthMethodOAuth := by
    rw [hbasic]; decide
  refine ⟨?_, ?_, ?_, ?_⟩ <;> simp [doRequest, hfirst, hne]

/-- C5 witness: the Basic client receives the 401 response itself, with no
refresh attempt and one HTTP attempt. -/
theorem doRequest_basic_401_unmodified_witness :
    (doRequest envRefreshFail clientBasic "GET" "https://api.example/w" none "").result
      = Except.ok resp401 ∧
    (doRequest envRefreshFail clientBasic "GET" "https://api.example/w" none "").refreshAttempted
      = false ∧
    (doRequest envRefreshFail clientBasic "GET" "https://api.example/w" none "").saveCalls
      = [] ∧
    (doRequest envRefreshFail clientBasic "GET" "https://api.example/w" none "").attempts.length
      = 1 :=
  doRequest_basic_401_unmodified envRefreshFail clientBasic "GET" "https://api.example/w"
    none "" resp401 rfl rfl rfl

/-- C6: the Authorization header is chosen by the credential tag: OAuth gives
`Bearer <access token>`, Basic / App-password gives HTTP Basic auth with the
stored username and the stored secret as password. -/
theorem setAuth_by_credential_tag (c : Client) :
    (c.authMethod = AuthMethodOAuth → setAuth c = AuthHeader.bearer c.token.accessToken) ∧
    (c.authMethod = AuthMethodToken →
      setAuth c = AuthHeader.basic c.token.username c.token.accessToken) := by
  constructor
  · intro h
    have hne : ¬ c.authMethod = AuthMethodToken := by rw [h]; decide
    simp [setAuth, hne]
  · intro h
    simp [setAuth, h]

/-- C6 witness: the OAuth client gets a Bearer header with its access token;
the Basic client gets Basic auth with username `bob` and password `pw`. -/
theorem setAuth_by_credential_tag_witness :
    setAuth clientOauth = AuthHeader.bearer "A1" ∧
    setAuth clientBasic = AuthHeader.basic "bob" "pw" :=
  ⟨(setAuth_by_credential_tag clientOauth).1 rfl,
   (setAuth_by_credential_tag clientBasic).2 rfl⟩

/-- C7: every final response with status at least 400 is turned by
`handleResponse` into an API error whose message is exactly
`API error (HTTP <status>): <raw body>` — it contains the literal status
code and the literal raw body — and no data is returned. -/
theorem handleResponse_api_error (resp : HttpResponse) (h : 400 ≤ resp.statusCode) :
    handleResponse resp
      = Except.error ("API error (HTTP " ++ toString resp.statusCode ++ "): " ++ resp.body) ∧
    ∀ b, handleResponse resp ≠ Except.ok b := by
  refine ⟨?_, ?_⟩ <;> simp [handleResponse, h]

/-- C7 witness: a 404 with body `missing` yields exactly the API-error
message and no data. -/
theorem handleResponse_api_error_witness :
    handleResponse { statusCode := 404, body := "missing" }
      = Except.error ("API error (HTTP " ++ toString 404 ++ "): " ++ "missing") :=
  (handleResponse_api_error { statusCode := 404, body := "missing" } (by decide)).1

/-- C8: when the final response of a DELETE call has status 204, `Delete`
returns the empty result and no error, whatever bytes are in the body (the
body is never decoded). -/
theorem delete_204_no_content (env : Env) (c : Client) (path : String)
    (resp : HttpResponse)
    (hres : (doRequest env c "DELETE" (BitbucketAPI ++ path) none "").result
      = Except.ok resp)
    (h204 : resp.statusCode = 204) :
    Delete env c path = Except.ok none := by
  simp [Delete, hres, h204]

/-- C8 witness: a 204 response carrying malformed body bytes still yields the
empty result with no error. -/
theorem delete_204_no_content_witness :
    Delete envDelete clientOauth "/repositories/w/r" = Except.ok none :=
  delete_204_no_content envDelete clientOauth "/repositories/w/r" resp204 rfl rfl

/-- C9: when the refresh HTTP exchange succeeds but `SaveToken` fails,
`doRequest` still returns the fatal session-expired error and performs no
retry, even though the in-memory credential has already been replaced by the
freshly refreshed token, which was also the one passed to the failed save. -/
theorem doRequest_save_failure_divergence (env : Env) (c : Client) (m u : String)
    (b : Option String) (ct : String) (resp : HttpResponse) (nt0 : TokenData) (e : String)
    (hfirst : env.transport 0 (buildRequest c m u (b.getD "") ct) = Except.ok resp)
    (h401 : resp.statusCode = 401)
    (hoauth : c.authMethod = AuthMethodOAuth)
    (hrt : c.token.refreshToken ≠ "")
    (hkey : c.cfg.oauthKey ≠ "") (hsec : c.cfg.oauthSecret ≠ "")
    (href : env.refresher c.cfg.oauthKey c.cfg.oauthSecret c.token.refreshToken
      = Except.ok nt0)
    (hsave : env.saveTok (preserveRefresh c.token.refreshToken nt0) = some e) :
    (doRequest env c m u b ct).result
      = Except.error (sessionExpiredMsg ++ ": " ++ e) ∧
    (doRequest env c m u b ct).attempts.length = 1 ∧
    (doRequest env c m u b ct).saveCalls = [preserveRefresh c.token.refreshToken nt0] ∧
    (doRequest env c m u b ct).client.token = preserveRefresh c.token.refreshToken nt0 := by
  have hr : refreshToken env c =
      { result := Except.error e,
        client := { c with token := preserveRefresh c.token.refreshToken nt0 },
        saveCalls := [preserveRefresh c.token.refreshToken nt0] } := by
    simp [refreshToken, hkey, hsec, href, hsave]
  refine ⟨?_, ?_, ?_, ?_⟩ <;> simp [doRequest, hfirst, h401, hoauth, hrt, hr]

/-- C9 witness: refresher succeeds, save fails with `disk full`: the call
fails with the session-expired message after one attempt, while the
in-memory token is already the refreshed one (refresh `R1` preserved). -/
theorem doRequest_save_failure_divergence_witness :
    (doRequest envSaveFail clientOauth "GET" "https://api.example/v" none "").result
      = Except.error (sessionExpiredMsg ++ ": " ++ "disk full") ∧
    (doRequest envSaveFail clientOauth "GET" "https://api.example/v" none "").attempts.length
      = 1 ∧
    (doRequest envSaveFail clientOauth "GET" "https://api.example/v" none "").saveCalls
      = [preserveRefresh "R1" tokRefreshed] ∧
    (doRequest envSaveFail clientOauth "GET" "https://api.example/v" none "").client.token
      = preserveRefresh "R1" tokRefreshed :=
  doRequest_save_failure_divergence envSaveFail clientOauth "GET" "https://api.example/v"
    none "" resp401 tokRefreshed "disk full" rfl rfl rfl (by decide) (by decide) (by decide)
    rfl rfl

/-- C10: `ClearToken` is idempotent: clearing when no credential file exists
succeeds without error, and running it twice yields the same result and
final state as running it once. -/
theorem clearToken_idempotent (fs : FsState) :
    ((fs.dirError = none ∧ fs.tokenFile = none) → ClearToken fs = (Except.ok (), fs)) ∧
    ClearToken (ClearToken fs).2 = ClearToken fs := by
  constructor
  · rintro ⟨h1, h2⟩
    simp [ClearToken, h1, h2]
  · rcases fs with ⟨de, tf⟩
    cases de <;> cases tf <;> simp [ClearToken]

/-- C10 witness: clearing with no token file succeeds and changes nothing;
clearing twice from a state with a token file equals clearing once. -/
theorem clearToken_idempotent_witness :
    ClearToken { dirError := none, tokenFile := none }
      = (Except.ok (), { dirError := none, tokenFile := none }) ∧
    ClearToken (ClearToken { dirError := none, tokenFile := some "tok" }).2
      = ClearToken { dirError := none, tokenFile := some "tok" } :=
  ⟨(clearToken_idempotent { dirError := none, tokenFile := none }).1 ⟨rfl, rfl⟩,
   (clearToken_idempotent { dirError := none, tokenFile := some "tok" }).2⟩

end BB
